import Mathlib

/-!
Verification of the stock-analysis display pipeline (`src/app.py`).

The app is a Streamlit page: on form submission it fetches price history,
company metadata, financial metrics and news for a symbol, asks a remote
LLM for a recommendation, and renders four tabs.  We embed the pipeline
shallowly:

* Python values flowing through dictionaries are modelled by `PyVal`
  (None / number / string / list); dictionaries by association lists.
* Numbers are modelled as rationals (`Rat`); the float format `:.2f`
  is modelled by `fmtFixed2` with round-half-even, as Python formats.
* The rendered page is a `List Section`; pure render functions mirror the
  four tab bodies.  Streamlit renders sequentially, so an exception caught
  by the `except` block at src/app.py:313 leaves the already-emitted
  sections in place followed by the error message: `analyze` reproduces
  exactly that control flow, and additionally records the order of
  external calls in a `FetchCall` trace.
* The helper modules imported from `mount.src.stockanalysis.utils` are not
  part of this snapshot; where a claim depends on them they are modelled
  from the spec (marked `Modelled from the spec:`).  Everything else is a
  direct transcription of `src/app.py`.
-/

/-- A Python runtime value as it flows through this app: `None`, a number,
a string, or a list.  (The app only ever stores these shapes in the
dictionaries it displays.) -/
inductive PyVal : Type where
  | none : PyVal
  | num (q : Rat) : PyVal
  | str (s : String) : PyVal
  | list (xs : List PyVal) : PyVal
deriving Repr

/-- A Python dictionary with string keys, as an association list. -/
abbrev Dict : Type := List (String × PyVal)

/-- Python `d.get(k, default)`. -/
def pyGet (d : Dict) (k : String) (default : PyVal) : PyVal :=
  match d.lookup k with
  | Option.some v => v
  | Option.none => default

/-- Python truthiness of a value (`if v:`).  `None`, `0`, `""` and `[]`
are falsy. -/
def pyTruthy : PyVal → Bool
  | PyVal.none => false
  | PyVal.num q => !(q == 0)
  | PyVal.str s => !(s == "")
  | PyVal.list xs => !xs.isEmpty

/-- Python truthiness of a dictionary (`if d:`): non-empty. -/
def dictTruthy (d : Dict) : Bool := !d.isEmpty

/-- Python `v == "s"` for a string literal `"s"`: true only when `v` is a
string equal to it. -/
def pyEqStr (v : PyVal) (s : String) : Bool :=
  match v with
  | PyVal.str t => t == s
  | _ => false

/-- Python `v is not None`. -/
def pyIsNotNone (v : PyVal) : Bool :=
  match v with
  | PyVal.none => false
  | _ => true

/-- Iterating a value with `for x in v`.  In the app this is only applied
to `risk_factors`, which is always a list (the engine's decode guarantees
it); on a non-list Python would raise a `TypeError`, which never happens
here. -/
def pyIterList : PyVal → List PyVal
  | PyVal.list xs => xs
  | _ => []

/-- ASCII uppercasing of one character, as `str.upper` acts on the ASCII
range.  (Python's `upper` also maps non-ASCII cased letters, but no
character whatsoever uppercases to `'-'`, which is the only fact the app
depends on.) -/
def upperChar (c : Char) : Char :=
  if 'a' ≤ c ∧ c ≤ 'z' then Char.ofNat (c.toNat - 32) else c

/-- Asset-kind classification, src/app.py:99 (and identically at lines
139, 185, 193, 209, 226): `is_crypto = "-" in stock_symbol.upper()`. -/
def isCrypto (stock_symbol : String) : Bool :=
  (stock_symbol.data.map upperChar).contains '-'

/-- Display-window derivation, src/app.py:85-88: keep the last 252 rows
(`stock_data.tail(252)`) when more are available, else the whole series. -/
def displayData {α : Type} (stock_data : List α) : List α :=
  if stock_data.length > 252 then stock_data.drop (stock_data.length - 252)
  else stock_data

/-- Round to the nearest integer, ties to even — the rounding Python uses
when formatting floats. -/
def roundHalfEven (q : Rat) : Int :=
  let f : Int := ⌊q⌋
  let r : Rat := q - (f : Rat)
  if r < 1/2 then f
  else if 1/2 < r then f + 1
  else if f % 2 = 0 then f else f + 1

/-- Python `f"{x:.2f}"` on our rational model of the float `x`:
two decimal digits, round half to even, and a minus sign whenever the
input was negative (Python prints `-0.00` for tiny negatives). -/
def fmtFixed2 (x : Rat) : String :=
  let n : Int := roundHalfEven (x * 100)
  let a : Nat := n.natAbs
  let sign : String := if n < 0 ∨ (n = 0 ∧ x < 0) then "-" else ""
  sign ++ toString (a / 100) ++ "." ++ (if a % 100 < 10 then "0" else "")
    ++ toString (a % 100)

/-- Python `f"{v * 100:.2f}%"`.  The metric values this is applied to are
numeric (floats from the upstream provider); on a non-number Python would
raise, which the guards in the app prevent. -/
def fmtTimes100Pct (v : PyVal) : String :=
  match v with
  | PyVal.num q => fmtFixed2 (q * 100) ++ "%"
  | _ => ""

/-- The truthiness-guarded percentage rendering used at src/app.py:198,
204, 220, 221:
`f"{m.get(k, 0) * 100:.2f}%" if m.get(k) else "N/A"`. -/
def pctIfTruthy (m : Dict) (k : String) : PyVal :=
  if pyTruthy (pyGet m k PyVal.none) then
    PyVal.str (fmtTimes100Pct (pyGet m k (PyVal.num 0)))
  else PyVal.str "N/A"

/-- The `is not None`-guarded percentage rendering used at
src/app.py:238-240:
`f"{m.get(k, 0) * 100:.2f}%" if m.get(k) is not None else "N/A"`. -/
def pctIfNotNone (m : Dict) (k : String) : String :=
  if pyIsNotNone (pyGet m k PyVal.none) then
    fmtTimes100Pct (pyGet m k (PyVal.num 0))
  else "N/A"

/-- One rendered UI element.  Constructors follow the order in which
`src/app.py` emits widgets; presentation-only formatting (markdown, html
colors applied to already-computed strings) is carried as the raw values. -/
inductive Section : Type where
  | chart (bars : List Rat) : Section
  | assetTypeHeader (title : String) : Section
  | recBanner (style : String) (action : PyVal) : Section
  | analysisSummary (text : PyVal) : Section
  | riskFactor (text : PyVal) : Section
  | detailedAnalysis (text : PyVal) : Section
  | aboutHeader (symbol : String) : Section
  | infoLine (label : String) (value : PyVal) : Section
  | infoWarning (msg : String) : Section
  | metricsHeader (symbol : String) (assetType : String) : Section
  | metricLine (label : String) (value : PyVal) : Section
  | metricsWarning (msg : String) : Section
  | newsHeader (symbol : String) : Section
  | sentimentHeader (color : String) (trend : PyVal) (score : PyVal) : Section
  | sentimentSummary (text : PyVal) : Section
  | keyTopics (topics : PyVal) : Section
  | newsArticle (title source date url summary : PyVal) : Section
  | noNews (symbol : String) : Section
  | noNewsHint : Section
  | errorMsg (msg : String) : Section
  | errorHint (msg : String) : Section
deriving Repr

/-- Recognizer for the financial-metrics tab's widgets (header, metric
lines, or its "not available" warning). -/
def sectionIsMetrics : Section → Bool
  | Section.metricsHeader _ _ => true
  | Section.metricLine _ _ => true
  | Section.metricsWarning _ => true
  | _ => false

/-- Recognizer for the news tab's widgets. -/
def sectionIsNews : Section → Bool
  | Section.newsHeader _ => true
  | Section.sentimentHeader _ _ _ => true
  | Section.sentimentSummary _ => true
  | Section.keyTopics _ => true
  | Section.newsArticle _ _ _ _ _ => true
  | Section.noNews _ => true
  | Section.noNewsHint => true
  | _ => false

/-- Recognizer for the recommendation banner (src/app.py:117-122). -/
def sectionIsRecBanner : Section → Bool
  | Section.recBanner _ _ => true
  | _ => false

/-- The outcome of the one remote LLM call made by the recommendation
engine: the call raised, the service answered with an error, or it
answered with a structured response (whose fields may be missing). -/
inductive RemoteOutcome : Type where
  | raised (msg : String) : RemoteOutcome
  | errorResponse (msg : String) : RemoteOutcome
  | response (fields : Dict) : RemoteOutcome

/-- The safe default recommendation the engine degrades to: `NEUTRAL`
action, placeholder summary, empty risk list. -/
def defaultAnalysis : Dict :=
  [("recommendation", PyVal.str "NEUTRAL"),
   ("summary", PyVal.str "Analysis unavailable"),
   ("risk_factors", PyVal.list []),
   ("detailed_analysis", PyVal.str "Analysis unavailable")]

/-- Modelled from the spec: `generate_stock_analysis` lives in
`mount/src/stockanalysis/utils/gemini_analysis.py`, which is not part of
this snapshot (src/app.py:16 only imports and calls it).  Per spec §4.4
the engine performs the single remote call and parses the structured
response into the four Recommendation fields with a strict decode; "if
the response is malformed or a field is missing, substitute a safe
default (`NEUTRAL`, empty summary/risk list) rather than propagating a
parse error to the caller — the engine must never crash the request
pipeline", and a raised/errored remote call likewise "degrades to a
neutral/placeholder Recommendation".  The prompt built from the inputs
does not affect which of these cases occurs, so the function is indexed
by the remote outcome alone. -/
def generate_stock_analysis (outcome : RemoteOutcome) : Dict :=
  match outcome with
  | RemoteOutcome.raised _ => defaultAnalysis
  | RemoteOutcome.errorResponse _ => defaultAnalysis
  | RemoteOutcome.response fields =>
    match fields.lookup "recommendation" with
    | Option.none => defaultAnalysis
    | Option.some r =>
      match fields.lookup "summary" with
      | Option.none => defaultAnalysis
      | Option.some s =>
        match fields.lookup "risk_factors" with
        | Option.some (PyVal.list rf) =>
          match fields.lookup "detailed_analysis" with
          | Option.none => defaultAnalysis
          | Option.some dd =>
              [("recommendation", r), ("summary", s),
               ("risk_factors", PyVal.list rf), ("detailed_analysis", dd)]
        | _ => defaultAnalysis

/-- Modelled from the spec: `summarize_news_sentiment` lives in
`mount/src/stockanalysis/utils/news_collector.py`, which is not part of
this snapshot (src/app.py:18 only imports and calls it).  Per spec §4.3
it "must handle the empty-input case by returning a neutral, zero-score
result rather than failing"; the score and trend thresholds for
non-empty input are an implementation-defined contract the spec leaves
open, so that case is a parameter. -/
def summarize_news_sentiment (impl : List Dict → Dict)
    (newsItems : List Dict) : Dict :=
  if newsItems.isEmpty then
    [("sentiment_score", PyVal.num 0),
     ("trend", PyVal.str "neutral"),
     ("summary", PyVal.str "No news to analyze"),
     ("key_topics", PyVal.list [])]
  else impl newsItems

/-- The analysis/recommendation part of tab 1, src/app.py:113-136: read
the engine's result with per-field defaults, color-code the banner, list
the risk factors. -/
def tab1Analysis (analysis_result : Dict) : List Section :=
  let recommendation := pyGet analysis_result "recommendation" (PyVal.str "NEUTRAL")
  let banner :=
    if pyEqStr recommendation "BUY" then Section.recBanner "success" recommendation
    else if pyEqStr recommendation "SELL" then Section.recBanner "error" recommendation
    else Section.recBanner "info" recommendation
  [banner,
   Section.analysisSummary (pyGet analysis_result "summary" (PyVal.str "No summary available"))]
  ++ (pyIterList (pyGet analysis_result "risk_factors" (PyVal.list []))).map Section.riskFactor
  ++ [Section.detailedAnalysis
        (pyGet analysis_result "detailed_analysis" (PyVal.str "No detailed analysis available"))]

/-- All of tab 1 (src/app.py:92-136): the price chart over the display
window and the asset-type header precede the fetches; the analysis
sections follow them. -/
def tab1Sections (stock_symbol : String) (stock_data : List Rat)
    (analysis_result : Dict) : List Section :=
  [Section.chart (displayData stock_data),
   Section.assetTypeHeader (if isCrypto stock_symbol then "Cryptocurrency" else "Stock")]
  ++ tab1Analysis analysis_result

/-- The crypto variant of tab 2, src/app.py:140-160. -/
def cryptoInfoSections (stock_symbol : String) (company_info : Dict) : List Section :=
  Section.aboutHeader stock_symbol ::
  (if dictTruthy company_info then
    [Section.infoLine "Name" (pyGet company_info "longName" (PyVal.str stock_symbol)),
     Section.infoLine "Category" (PyVal.str "Cryptocurrency"),
     Section.infoLine "Symbol" (PyVal.str stock_symbol),
     Section.infoLine "Market" (PyVal.str "Cryptocurrency"),
     Section.infoLine "Market Cap" (pyGet company_info "marketCap" (PyVal.str "N/A")),
     Section.infoLine "Volume (24h)" (pyGet company_info "volume24Hr" (PyVal.str "N/A")),
     Section.infoLine "Circulating Supply" (pyGet company_info "circulatingSupply" (PyVal.str "N/A")),
     Section.infoLine "Description"
       (pyGet company_info "description"
         (pyGet company_info "longBusinessSummary" (PyVal.str "No description available")))]
  else [Section.infoWarning "Cryptocurrency information not available"])

/-- The equity variant of tab 2, src/app.py:161-182. -/
def stockInfoSections (stock_symbol : String) (company_info : Dict) : List Section :=
  Section.aboutHeader stock_symbol ::
  (if dictTruthy company_info then
    [Section.infoLine "Company Name" (pyGet company_info "longName" (PyVal.str "N/A")),
     Section.infoLine "Sector" (pyGet company_info "sector" (PyVal.str "N/A")),
     Section.infoLine "Industry" (pyGet company_info "industry" (PyVal.str "N/A")),
     Section.infoLine "Country" (pyGet company_info "country" (PyVal.str "N/A")),
     Section.infoLine "Exchange" (pyGet company_info "exchange" (PyVal.str "N/A")),
     Section.infoLine "Market Cap" (pyGet company_info "marketCap" (PyVal.str "N/A")),
     Section.infoLine "Employees" (pyGet company_info "fullTimeEmployees" (PyVal.str "N/A")),
     Section.infoLine "Website" (pyGet company_info "website" (PyVal.str "N/A")),
     Section.infoLine "Business Summary"
       (pyGet company_info "longBusinessSummary" (PyVal.str "No business summary available"))]
  else [Section.infoWarning "Company information not available"])

/-- Tab 2 (src/app.py:138-182): the asset kind selects which attribute
set of the metadata is shown. -/
def tab2Sections (stock_symbol : String) (company_info : Dict) : List Section :=
  if isCrypto stock_symbol then cryptoInfoSections stock_symbol company_info
  else stockInfoSections stock_symbol company_info

/-- The crypto attribute set of tab 3 (columns at src/app.py:197-201 and
211-216, expander at 228-235). -/
def cryptoMetricsSections (m : Dict) : List Section :=
  [Section.metricLine "24h Change" (pctIfTruthy m "regularMarketChangePercent"),
   Section.metricLine "24h Volume" (pyGet m "volume24Hr" (pyGet m "volume" (PyVal.str "N/A"))),
   Section.metricLine "Market Cap" (pyGet m "marketCap" (PyVal.str "N/A")),
   Section.metricLine "Circulating Supply" (pyGet m "circulatingSupply" (PyVal.str "N/A")),
   Section.metricLine "All-Time High" (pyGet m "fiftyTwoWeekHigh" (PyVal.str "N/A")),
   Section.metricLine "All-Time Low" (pyGet m "fiftyTwoWeekLow" (PyVal.str "N/A")),
   Section.metricLine "Max Supply" (pyGet m "maxSupply" (PyVal.str "N/A")),
   Section.metricLine "Total Supply" (pyGet m "totalSupply" (PyVal.str "N/A")),
   Section.metricLine "Volume Ratio" (pyGet m "averageDailyVolume10Day" (PyVal.str "N/A")),
   Section.metricLine "Market Dominance" (pyGet m "marketDominance" (PyVal.str "N/A")),
   Section.metricLine "Trading Volume" (pyGet m "volume" (PyVal.str "N/A")),
   Section.metricLine "Avg Volume (3m)" (pyGet m "averageVolume3Months" (PyVal.str "N/A")),
   Section.metricLine "Avg Volume (10d)" (pyGet m "averageDailyVolume10Day" (PyVal.str "N/A")),
   Section.metricLine "Beta" (pyGet m "beta" (PyVal.str "N/A")),
   Section.metricLine "YTD Return" (pyGet m "ytdReturn" (PyVal.str "N/A"))]

/-- The equity attribute set of tab 3 (columns at src/app.py:203-206 and
218-222, expander at 237-250). -/
def stockMetricsSections (m : Dict) : List Section :=
  [Section.metricLine "P/E Ratio" (pyGet m "trailingPE" (PyVal.str "N/A")),
   Section.metricLine "Dividend Yield" (pctIfTruthy m "dividendYield"),
   Section.metricLine "52 Week High" (pyGet m "fiftyTwoWeekHigh" (PyVal.str "N/A")),
   Section.metricLine "52 Week Low" (pyGet m "fiftyTwoWeekLow" (PyVal.str "N/A")),
   Section.metricLine "EPS" (pyGet m "trailingEps" (PyVal.str "N/A")),
   Section.metricLine "Price to Book" (pyGet m "priceToBook" (PyVal.str "N/A")),
   Section.metricLine "Return on Equity" (pctIfTruthy m "returnOnEquity"),
   Section.metricLine "Profit Margins" (pctIfTruthy m "profitMargins"),
   Section.metricLine "Debt to Equity" (pyGet m "debtToEquity" (PyVal.str "N/A")),
   Section.metricLine "Revenue Growth" (PyVal.str (pctIfNotNone m "revenueGrowth")),
   Section.metricLine "Gross Margins" (PyVal.str (pctIfNotNone m "grossMargins")),
   Section.metricLine "Operating Margins" (PyVal.str (pctIfNotNone m "operatingMargins")),
   Section.metricLine "Quick Ratio" (pyGet m "quickRatio" (PyVal.str "N/A")),
   Section.metricLine "Current Ratio" (pyGet m "currentRatio" (PyVal.str "N/A")),
   Section.metricLine "Beta" (pyGet m "beta" (PyVal.str "N/A")),
   Section.metricLine "Shares Outstanding" (pyGet m "sharesOutstanding" (PyVal.str "N/A")),
   Section.metricLine "Book Value" (pyGet m "bookValue" (PyVal.str "N/A")),
   Section.metricLine "Target Mean Price" (pyGet m "targetMeanPrice" (PyVal.str "N/A"))]

/-- Tab 3 (src/app.py:184-252).  The body recomputes
`is_crypto = "-" in stock_symbol.upper()` at lines 193, 209 and 226 with
the identical result, so the three per-column branches are rendered here
as one selection; the "Current Price" line (src/app.py:195) precedes the
branch. -/
def tab3Sections (stock_symbol : String) (financial_metrics : Dict) : List Section :=
  Section.metricsHeader stock_symbol
    (if isCrypto stock_symbol then "Cryptocurrency" else "Financial") ::
  (if dictTruthy financial_metrics then
    Section.metricLine "Current Price" (pyGet financial_metrics "currentPrice" (PyVal.str "N/A")) ::
    (if isCrypto stock_symbol then cryptoMetricsSections financial_metrics
     else stockMetricsSections financial_metrics)
  else [Section.metricsWarning "Financial metrics not available"])

/-- One rendered news article, src/app.py:295-306: every field defaults
individually. -/
def newsArticleSection (article : Dict) : Section :=
  Section.newsArticle
    (pyGet article "title" (PyVal.str "No title"))
    (pyGet article "source" (PyVal.str "Unknown"))
    (pyGet article "date" (PyVal.str "Unknown date"))
    (pyGet article "url" (PyVal.str "#"))
    (pyGet article "summary" (PyVal.str "No summary available"))

/-- Tab 4 (src/app.py:254-309): sentiment summary and article list when
news is present, an informational message otherwise. -/
def tab4Sections (stock_symbol : String) (news_articles : List Dict)
    (impl : List Dict → Dict) : List Section :=
  Section.newsHeader stock_symbol ::
  (if !news_articles.isEmpty then
    let sentiment_results := summarize_news_sentiment impl news_articles
    let sentiment_score := pyGet sentiment_results "sentiment_score" (PyVal.num 0)
    let sentiment_trend := pyGet sentiment_results "trend" (PyVal.str "neutral")
    let sentiment_summary := pyGet sentiment_results "summary" (PyVal.str "No news analysis available")
    let sentiment_color :=
      if pyEqStr sentiment_trend "strongly positive" then "darkgreen"
      else if pyEqStr sentiment_trend "positive" then "green"
      else if pyEqStr sentiment_trend "strongly negative" then "darkred"
      else if pyEqStr sentiment_trend "negative" then "red"
      else "grey"
    [Section.sentimentHeader sentiment_color sentiment_trend sentiment_score,
     Section.sentimentSummary sentiment_summary]
    ++ (let key_topics := pyGet sentiment_results "key_topics" (PyVal.list [])
        if pyTruthy key_topics then [Section.keyTopics key_topics] else [])
    ++ news_articles.map newsArticleSection
  else [Section.noNews stock_symbol, Section.noNewsHint])

/-- The outcome of each external call the request makes, in program
order.  `Except.error` is a raised exception (caught by the handler at
src/app.py:313); the price fetch additionally returns `none` when the
provider does not recognize the symbol (`get_stock_data` yields no data
and the guard at src/app.py:83 sees `None` — Modelled from the spec:
`get_stock_data` itself is in the absent `stock_data.py`; per spec §4.1
it "returns `NotFound` (not an exception) when the symbol is
unrecognized").  News is fetched twice (src/app.py:108 and 259), each
call with its own outcome. -/
structure FetchResults : Type where
  stock_data : Except String (Option (List Rat))
  company_info : Except String Dict
  financial_metrics : Except String Dict
  newsFirst : Except String (List Dict)
  newsSecond : Except String (List Dict)
  remote : RemoteOutcome

/-- Which external calls a request performed, in order. -/
inductive FetchCall : Type where
  | priceFetch : FetchCall
  | infoFetch : FetchCall
  | metricsFetch : FetchCall
  | newsFetchA : FetchCall
  | engineCall : FetchCall
  | newsFetchB : FetchCall
deriving DecidableEq, Repr

/-- The `except Exception` handler at src/app.py:313-315. -/
def errorSections (e : String) : List Section :=
  [Section.errorMsg ("An error occurred: " ++ e),
   Section.errorHint "Please check if the stock symbol is correct. For IDX stocks, use the format IDX:SYMBOL (e.g., IDX:ADRO)."]

/-- The terminal message at src/app.py:311 for an unrecognized symbol. -/
def couldNotRetrieveMsg (stock_symbol : String) : String :=
  "Could not retrieve data for " ++ stock_symbol ++ ". Please check the symbol and try again."

/-- Whether the API-key configuration expander opens as a setup prompt:
src/app.py:41, `expanded=not st.session_state['GEMINI_API_KEY']`, i.e.
exactly when the stored key (initialized to `""` at src/app.py:37-38) is
empty. -/
def apiKeyExpanderExpanded (gemini_api_key : String) : Bool :=
  gemini_api_key == ""

/-- The whole analyze request, src/app.py:75-315: the page rendered for
one submission, paired with the trace of external calls made.  Widgets
already emitted when a fetch raises stay on the page and the handler's
message follows them, exactly as Streamlit executes the `try` body.  The
session's `gemini_api_key` is part of the request state but — as in the
source, where no credential guard exists around the
`generate_stock_analysis` call at src/app.py:111 — it is never consulted
by this flow. -/
def analyze (gemini_api_key : String) (stock_symbol : String)
    (f : FetchResults) (impl : List Dict → Dict) : List Section × List FetchCall :=
  let _ := gemini_api_key
  match f.stock_data with
  | Except.error e => (errorSections e, [FetchCall.priceFetch])
  | Except.ok Option.none =>
      ([Section.errorMsg (couldNotRetrieveMsg stock_symbol)], [FetchCall.priceFetch])
  | Except.ok (Option.some stock_data) =>
    let pre : List Section :=
      [Section.chart (displayData stock_data),
       Section.assetTypeHeader (if isCrypto stock_symbol then "Cryptocurrency" else "Stock")]
    match f.company_info with
    | Except.error e =>
        (pre ++ errorSections e, [FetchCall.priceFetch, FetchCall.infoFetch])
    | Except.ok company_info =>
      match f.financial_metrics with
      | Except.error e =>
          (pre ++ errorSections e,
           [FetchCall.priceFetch, FetchCall.infoFetch, FetchCall.metricsFetch])
      | Except.ok financial_metrics =>
        match f.newsFirst with
        | Except.error e =>
            (pre ++ errorSections e,
             [FetchCall.priceFetch, FetchCall.infoFetch, FetchCall.metricsFetch,
              FetchCall.newsFetchA])
        | Except.ok _news_articles =>
          let analysis_result := generate_stock_analysis f.remote
          let t1 := pre ++ tab1Analysis analysis_result
          let t2 := tab2Sections stock_symbol company_info
          let t3 := tab3Sections stock_symbol financial_metrics
          match f.newsSecond with
          | Except.error e =>
              (t1 ++ t2 ++ t3 ++ [Section.newsHeader stock_symbol] ++ errorSections e,
               [FetchCall.priceFetch, FetchCall.infoFetch, FetchCall.metricsFetch,
                FetchCall.newsFetchA, FetchCall.engineCall, FetchCall.newsFetchB])
          | Except.ok news_articles =>
              (t1 ++ t2 ++ t3 ++ tab4Sections stock_symbol news_articles impl,
               [FetchCall.priceFetch, FetchCall.infoFetch, FetchCall.metricsFetch,
                FetchCall.newsFetchA, FetchCall.engineCall, FetchCall.newsFetchB])

/-! ### Helper lemmas -/

lemma toNat_ofNat_valid (n : Nat) (h : n.isValidChar) : (Char.ofNat n).toNat = n := by
  simp [Char.ofNat, Char.toNat, Char.ofNatAux, h, UInt32.toNat, UInt32.ofNatCore]

lemma upperChar_eq_hyphen_iff (c : Char) : upperChar c = '-' ↔ c = '-' := by
  unfold upperChar
  split
  · rename_i h
    have h1 : 97 ≤ c.toNat := by rw [Char.le_def] at h; exact h.1
    have h2 : c.toNat ≤ 122 := by rw [Char.le_def] at h; exact h.2
    have hv : (c.toNat - 32).isValidChar := Or.inl (by omega)
    constructor
    · intro he
      have := congrArg Char.toNat he
      rw [toNat_ofNat_valid _ hv] at this
      have hh : ('-' : Char).toNat = 45 := by decide
      omega
    · intro he
      subst he
      simp at h1
  · exact Iff.rfl

lemma isCrypto_iff (s : String) : isCrypto s = s.data.contains '-' := by
  unfold isCrypto
  induction s.data with
  | nil => rfl
  | cons a l ih =>
    simp only [List.map_cons, List.contains_cons] at *
    rw [ih]
    congr 1
    by_cases h : a = '-'
    · subst h; simp [upperChar]
    · have hne : upperChar a ≠ '-' := fun he => h ((upperChar_eq_hyphen_iff a).mp he)
      have e1 : ('-' == upperChar a) = false := by
        simp only [beq_eq_false_iff_ne]
        exact fun he => hne (Eq.symm he)
      have e2 : ('-' == a) = false := by
        simp only [beq_eq_false_iff_ne]
        exact fun he => h (Eq.symm he)
      rw [e1, e2]

lemma pyGet_of_lookup_none (d : Dict) (k : String) (v : PyVal)
    (h : d.lookup k = Option.none) : pyGet d k v = v := by
  unfold pyGet
  rw [h]

lemma pyGet_of_lookup_some (d : Dict) (k : String) (v w : PyVal)
    (h : d.lookup k = Option.some w) : pyGet d k v = w := by
  unfold pyGet
  rw [h]

lemma roundHalfEven_zero : roundHalfEven 0 = 0 := by
  unfold roundHalfEven
  norm_num

lemma fmtFixed2_zero : fmtFixed2 0 = "0.00" := by
  unfold fmtFixed2
  rw [show ((0 : Rat) * 100) = 0 by norm_num, roundHalfEven_zero]
  norm_num
  decide

lemma fmtTimes100Pct_zero : fmtTimes100Pct (PyVal.num 0) = "0.00%" := by
  have h : fmtTimes100Pct (PyVal.num 0) = fmtFixed2 (0 * 100) ++ "%" := rfl
  rw [h, show ((0 : Rat) * 100) = 0 by norm_num, fmtFixed2_zero]
  rfl

lemma pctIfTruthy_absent (m : Dict) (k : String)
    (h : m.lookup k = Option.none) : pctIfTruthy m k = PyVal.str "N/A" := by
  unfold pctIfTruthy
  rw [pyGet_of_lookup_none _ _ _ h]
  rfl

lemma pctIfTruthy_zero (m : Dict) (k : String)
    (h : m.lookup k = Option.some (PyVal.num 0)) : pctIfTruthy m k = PyVal.str "N/A" := by
  unfold pctIfTruthy
  rw [pyGet_of_lookup_some _ _ _ _ h]
  simp [pyTruthy]

lemma pctIfNotNone_absent (m : Dict) (k : String)
    (h : m.lookup k = Option.none) : pctIfNotNone m k = "N/A" := by
  unfold pctIfNotNone
  rw [pyGet_of_lookup_none _ _ _ h]
  rfl

lemma pctIfNotNone_zero (m : Dict) (k : String)
    (h : m.lookup k = Option.some (PyVal.num 0)) : pctIfNotNone m k = "0.00%" := by
  unfold pctIfNotNone
  rw [pyGet_of_lookup_some _ _ _ _ h, pyGet_of_lookup_some _ _ _ _ h]
  simp [pyIsNotNone, fmtTimes100Pct_zero]

/-! ### Claims -/

/-- C1: for every submitted symbol string, the display pipeline classifies
it as cryptocurrency exactly when the symbol contains a hyphen (uppercasing
never creates or removes one), and that classification selects the crypto
versus equity attribute set in the metadata tab and the metrics tab. -/
theorem C1_hyphen_classification_selects_attribute_set (stock_symbol : String)
    (company_info financial_metrics : Dict) :
    isCrypto stock_symbol = stock_symbol.data.contains '-'
    ∧ tab2Sections stock_symbol company_info =
        (if stock_symbol.data.contains '-' then
          cryptoInfoSections stock_symbol company_info
         else stockInfoSections stock_symbol company_info)
    ∧ tab3Sections stock_symbol financial_metrics =
        Section.metricsHeader stock_symbol
          (if stock_symbol.data.contains '-' then "Cryptocurrency" else "Financial") ::
        (if dictTruthy financial_metrics then
          Section.metricLine "Current Price"
            (pyGet financial_metrics "currentPrice" (PyVal.str "N/A")) ::
          (if stock_symbol.data.contains '-' then cryptoMetricsSections financial_metrics
           else stockMetricsSections financial_metrics)
         else [Section.metricsWarning "Financial metrics not available"]) := by
  refine ⟨isCrypto_iff stock_symbol, ?_, ?_⟩
  · unfold tab2Sections
    rw [isCrypto_iff]
  · unfold tab3Sections
    rw [isCrypto_iff]

/-- C2: for every fetched price series of length L, the derived display
series has length `min L 252` and is a suffix of the series (the
chronologically latest entries, in the same ascending order); concretely it
is `drop (L - 252)`. -/
theorem C2_display_window {α : Type} (stock_data : List α) :
    (displayData stock_data).length = min stock_data.length 252
    ∧ displayData stock_data <:+ stock_data
    ∧ displayData stock_data = stock_data.drop (stock_data.length - 252) := by
  unfold displayData
  split
  · refine ⟨?_, List.drop_suffix _ _, rfl⟩
    rw [List.length_drop]
    omega
  · rename_i h
    have h0 : stock_data.length - 252 = 0 := by omega
    refine ⟨by omega, List.suffix_refl _, ?_⟩
    rw [h0, List.drop_zero]

/-- C9: the Sentiment Summarizer applied to an empty news list returns a
result whose sentiment score is `0` and whose trend label is `"neutral"`
(a total function — it does not fail), whatever the
implementation-defined behavior on non-empty input is. -/
theorem C9_empty_news_neutral (impl : List Dict → Dict) :
    (summarize_news_sentiment impl []).lookup "sentiment_score"
        = Option.some (PyVal.num 0)
    ∧ (summarize_news_sentiment impl []).lookup "trend"
        = Option.some (PyVal.str "neutral") := by
  exact ⟨rfl, rfl⟩

lemma gsa_shape (o : RemoteOutcome) :
    generate_stock_analysis o = defaultAnalysis
    ∨ ∃ r s rf dd, generate_stock_analysis o =
        [("recommendation", r), ("summary", s),
         ("risk_factors", PyVal.list rf), ("detailed_analysis", dd)] := by
  cases o with
  | raised m => exact Or.inl rfl
  | errorResponse m => exact Or.inl rfl
  | response fields =>
    cases hr : fields.lookup "recommendation" with
    | none => exact Or.inl (by simp [generate_stock_analysis, hr])
    | some r =>
      cases hsum : fields.lookup "summary" with
      | none => exact Or.inl (by simp [generate_stock_analysis, hr, hsum])
      | some s =>
        cases hrf : fields.lookup "risk_factors" with
        | none => exact Or.inl (by simp [generate_stock_analysis, hr, hsum, hrf])
        | some v =>
          cases v with
          | list rf =>
            cases hd : fields.lookup "detailed_analysis" with
            | none =>
                exact Or.inl (by simp [generate_stock_analysis, hr, hsum, hrf, hd])
            | some dd =>
                exact Or.inr ⟨r, s, rf, dd,
                  by simp [generate_stock_analysis, hr, hsum, hrf, hd]⟩
          | none => exact Or.inl (by simp [generate_stock_analysis, hr, hsum, hrf])
          | num q => exact Or.inl (by simp [generate_stock_analysis, hr, hsum, hrf])
          | str t => exact Or.inl (by simp [generate_stock_analysis, hr, hsum, hrf])

/-- C6: for every metrics mapping in which a metric key is absent, each of
the three rendering forms used by the metrics tab yields the explicit
sentinel "N/A" (a total computation — nothing is raised), and in
particular an equity metrics tab with `dividendYield` absent shows the
"Dividend Yield" metric as "N/A". -/
theorem C6_missing_metric_key_renders_na (m : Dict) (stock_symbol : String)
    (hdy : m.lookup "dividendYield" = Option.none)
    (hne : dictTruthy m = true) (hs : isCrypto stock_symbol = false) :
    (∀ k : String, m.lookup k = Option.none →
      pctIfTruthy m k = PyVal.str "N/A"
      ∧ pctIfNotNone m k = "N/A"
      ∧ pyGet m k (PyVal.str "N/A") = PyVal.str "N/A")
    ∧ Section.metricLine "Dividend Yield" (PyVal.str "N/A")
        ∈ tab3Sections stock_symbol m := by
  constructor
  · intro k hk
    exact ⟨pctIfTruthy_absent m k hk, pctIfNotNone_absent m k hk,
           pyGet_of_lookup_none m k _ hk⟩
  · have hna : pctIfTruthy m "dividendYield" = PyVal.str "N/A" :=
      pctIfTruthy_absent m _ hdy
    simp [tab3Sections, stockMetricsSections, hs, hne, hna]

/-- Witness for C6 at the concrete metrics mapping
`[("trailingPE", 10)]` (no `dividendYield` key) and symbol `AAPL`. -/
theorem C6_missing_metric_key_renders_na_witness :
    pctIfTruthy [("trailingPE", PyVal.num 10)] "dividendYield" = PyVal.str "N/A"
    ∧ Section.metricLine "Dividend Yield" (PyVal.str "N/A")
        ∈ tab3Sections "AAPL" [("trailingPE", PyVal.num 10)] := by
  have h := C6_missing_metric_key_renders_na [("trailingPE", PyVal.num 10)] "AAPL"
    rfl rfl (by decide)
  exact ⟨(h.1 "dividendYield" rfl).1, h.2⟩

/-- C10: in the metrics tab, a percentage metric guarded by Python
truthiness (`dividendYield`, `returnOnEquity`, `profitMargins` on the
equity path; `regularMarketChangePercent` on the crypto path) that is
present with value 0 renders "N/A", exactly as when the key is absent;
whereas the metrics guarded by `is not None` (`revenueGrowth`,
`grossMargins`, `operatingMargins`) render a present 0 as "0.00%". -/
theorem C10_zero_metric_value_guards (m : Dict) :
    (m.lookup "dividendYield" = Option.some (PyVal.num 0) →
        pctIfTruthy m "dividendYield" = PyVal.str "N/A")
    ∧ (m.lookup "returnOnEquity" = Option.some (PyVal.num 0) →
        pctIfTruthy m "returnOnEquity" = PyVal.str "N/A")
    ∧ (m.lookup "profitMargins" = Option.some (PyVal.num 0) →
        pctIfTruthy m "profitMargins" = PyVal.str "N/A")
    ∧ (m.lookup "regularMarketChangePercent" = Option.some (PyVal.num 0) →
        pctIfTruthy m "regularMarketChangePercent" = PyVal.str "N/A")
    ∧ (m.lookup "revenueGrowth" = Option.some (PyVal.num 0) →
        pctIfNotNone m "revenueGrowth" = "0.00%")
    ∧ (m.lookup "grossMargins" = Option.some (PyVal.num 0) →
        pctIfNotNone m "grossMargins" = "0.00%")
    ∧ (m.lookup "operatingMargins" = Option.some (PyVal.num 0) →
        pctIfNotNone m "operatingMargins" = "0.00%")
    ∧ (∀ k : String, m.lookup k = Option.none → pctIfTruthy m k = PyVal.str "N/A") :=
  ⟨pctIfTruthy_zero m _, pctIfTruthy_zero m _, pctIfTruthy_zero m _,
   pctIfTruthy_zero m _, pctIfNotNone_zero m _, pctIfNotNone_zero m _,
   pctIfNotNone_zero m _, fun k hk => pctIfTruthy_absent m k hk⟩

/-- Witness for C10 at a concrete metrics mapping holding value 0 for all
seven guarded keys. -/
theorem C10_zero_metric_value_guards_witness :
    pctIfTruthy
      [("dividendYield", PyVal.num 0), ("returnOnEquity", PyVal.num 0),
       ("profitMargins", PyVal.num 0), ("regularMarketChangePercent", PyVal.num 0),
       ("revenueGrowth", PyVal.num 0), ("grossMargins", PyVal.num 0),
       ("operatingMargins", PyVal.num 0)] "dividendYield" = PyVal.str "N/A"
    ∧ pctIfNotNone
      [("dividendYield", PyVal.num 0), ("returnOnEquity", PyVal.num 0),
       ("profitMargins", PyVal.num 0), ("regularMarketChangePercent", PyVal.num 0),
       ("revenueGrowth", PyVal.num 0), ("grossMargins", PyVal.num 0),
       ("operatingMargins", PyVal.num 0)] "revenueGrowth" = "0.00%" := by
  have h := C10_zero_metric_value_guards
    [("dividendYield", PyVal.num 0), ("returnOnEquity", PyVal.num 0),
     ("profitMargins", PyVal.num 0), ("regularMarketChangePercent", PyVal.num 0),
     ("revenueGrowth", PyVal.num 0), ("grossMargins", PyVal.num 0),
     ("operatingMargins", PyVal.num 0)]
  exact ⟨h.1 rfl, h.2.2.2.2.1 rfl⟩

lemma gsa_missing_field (d : Dict)
    (h : d.lookup "recommendation" = Option.none
       ∨ d.lookup "summary" = Option.none
       ∨ d.lookup "risk_factors" = Option.none
       ∨ d.lookup "detailed_analysis" = Option.none) :
    generate_stock_analysis (RemoteOutcome.response d) = defaultAnalysis := by
  rcases h with h | h | h | h
  · simp [generate_stock_analysis, h]
  · cases hr : d.lookup "recommendation" with
    | none => simp [generate_stock_analysis, hr]
    | some r => simp [generate_stock_analysis, hr, h]
  · cases hr : d.lookup "recommendation" with
    | none => simp [generate_stock_analysis, hr]
    | some r =>
      cases hsum : d.lookup "summary" with
      | none => simp [generate_stock_analysis, hr, hsum]
      | some s => simp [generate_stock_analysis, hr, hsum, h]
  · cases hr : d.lookup "recommendation" with
    | none => simp [generate_stock_analysis, hr]
    | some r =>
      cases hsum : d.lookup "summary" with
      | none => simp [generate_stock_analysis, hr, hsum]
      | some s =>
        cases hrf : d.lookup "risk_factors" with
        | none => simp [generate_stock_analysis, hr, hsum, hrf]
        | some v =>
          cases v with
          | list rf => simp [generate_stock_analysis, hr, hsum, hrf, h]
          | none => simp [generate_stock_analysis, hr, hsum, hrf]
          | num q => simp [generate_stock_analysis, hr, hsum, hrf]
          | str t => simp [generate_stock_analysis, hr, hsum, hrf]

/-- C3: when the remote recommendation call raises, returns an error, or
returns a response with a missing field, the engine substitutes the safe
default and the displayed recommendation sections are: an `info`-styled
banner with action NEUTRAL, the placeholder summary, no risk-factor items
(empty list), and the placeholder detailed analysis; moreover the engine
always hands the display a well-formed result object (its four keys are
always present), so the parse failure never propagates. -/
theorem C3_engine_failure_safe_default (msg : String) (d : Dict) :
    tab1Analysis (generate_stock_analysis (RemoteOutcome.raised msg)) =
      [Section.recBanner "info" (PyVal.str "NEUTRAL"),
       Section.analysisSummary (PyVal.str "Analysis unavailable"),
       Section.detailedAnalysis (PyVal.str "Analysis unavailable")]
    ∧ tab1Analysis (generate_stock_analysis (RemoteOutcome.errorResponse msg)) =
      [Section.recBanner "info" (PyVal.str "NEUTRAL"),
       Section.analysisSummary (PyVal.str "Analysis unavailable"),
       Section.detailedAnalysis (PyVal.str "Analysis unavailable")]
    ∧ ((d.lookup "recommendation" = Option.none
        ∨ d.lookup "summary" = Option.none
        ∨ d.lookup "risk_factors" = Option.none
        ∨ d.lookup "detailed_analysis" = Option.none) →
      tab1Analysis (generate_stock_analysis (RemoteOutcome.response d)) =
        [Section.recBanner "info" (PyVal.str "NEUTRAL"),
         Section.analysisSummary (PyVal.str "Analysis unavailable"),
         Section.detailedAnalysis (PyVal.str "Analysis unavailable")])
    ∧ (∀ o : RemoteOutcome,
        (generate_stock_analysis o).lookup "recommendation" ≠ Option.none
        ∧ (generate_stock_analysis o).lookup "summary" ≠ Option.none
        ∧ (generate_stock_analysis o).lookup "risk_factors" ≠ Option.none
        ∧ (generate_stock_analysis o).lookup "detailed_analysis" ≠ Option.none) := by
  refine ⟨rfl, rfl, ?_, ?_⟩
  · intro h
    rw [gsa_missing_field d h]
    rfl
  · intro o
    rcases gsa_shape o with h | ⟨r, s, rf, dd, h⟩ <;> rw [h] <;>
      exact ⟨by simp [defaultAnalysis], by simp [defaultAnalysis],
             by simp [defaultAnalysis], by simp [defaultAnalysis]⟩

/-- Witness for C3 at a concrete malformed response missing its
`recommendation` field. -/
theorem C3_engine_failure_safe_default_witness :
    tab1Analysis (generate_stock_analysis
        (RemoteOutcome.response [("summary", PyVal.str "looks great")])) =
      [Section.recBanner "info" (PyVal.str "NEUTRAL"),
       Section.analysisSummary (PyVal.str "Analysis unavailable"),
       Section.detailedAnalysis (PyVal.str "Analysis unavailable")] :=
  (C3_engine_failure_safe_default "remote failure"
      [("summary", PyVal.str "looks great")]).2.2.1 (Or.inl rfl)

/-- C7: when the price-data fetch reports the symbol as unrecognized (the
`NotFound` sentinel, i.e. `get_stock_data` returned `None` rather than
raising), the request is terminal: the page is exactly the one
user-visible error message, none of the dependent sections (chart,
analysis, metadata, metrics, news) is rendered, and the trace shows the
single price fetch — no retry and no further calls. -/
theorem C7_symbol_not_found_terminal (gemini_api_key stock_symbol : String)
    (f : FetchResults) (impl : List Dict → Dict)
    (h : f.stock_data = Except.ok Option.none) :
    analyze gemini_api_key stock_symbol f impl =
      ([Section.errorMsg (couldNotRetrieveMsg stock_symbol)],
       [FetchCall.priceFetch]) := by
  simp [analyze, h]

/-- Witness for C7 at a concrete fetch environment whose price fetch
returns the NotFound sentinel. -/
theorem C7_symbol_not_found_terminal_witness :
    analyze "key" "NOSUCH"
      { stock_data := Except.ok Option.none,
        company_info := Except.ok [],
        financial_metrics := Except.ok [],
        newsFirst := Except.ok [],
        newsSecond := Except.ok [],
        remote := RemoteOutcome.response [] } (fun _ => []) =
      ([Section.errorMsg (couldNotRetrieveMsg "NOSUCH")],
       [FetchCall.priceFetch]) :=
  C7_symbol_not_found_terminal "key" "NOSUCH" _ (fun _ => []) rfl

/-- A fetch environment in which every call succeeds: price data present,
metadata and metrics non-empty, no news. -/
def fxOk : FetchResults :=
  { stock_data := Except.ok (Option.some [(1 : Rat)]),
    company_info := Except.ok [("longName", PyVal.str "Apple Inc.")],
    financial_metrics := Except.ok [("currentPrice", PyVal.num 100)],
    newsFirst := Except.ok [],
    newsSecond := Except.ok [],
    remote := RemoteOutcome.response [] }

/-- Counterexample to C5 as stated: with the credential unset (the key is
`""`, so the configuration expander opens as a setup prompt), an analysis
request still attempts the remote recommendation call — `engineCall`
appears in the trace — and the ordinary recommendation banner is rendered
instead of any setup prompt. -/
theorem C5_counterexample :
    apiKeyExpanderExpanded "" = true
    ∧ FetchCall.engineCall ∈ (analyze "" "AAPL" fxOk (fun _ => [])).2
    ∧ (analyze "" "AAPL" fxOk (fun _ => [])).1.any sectionIsRecBanner = true := by
  refine ⟨rfl, ?_, ?_⟩ <;> decide

/-- C5 as amended: the top-level API-key configuration expander opens as a
setup prompt exactly when the stored key is empty, but the analysis
pipeline itself is independent of the credential — the page it renders is
the same for any two keys, and whenever price data is available the
remote recommendation call is attempted (also with the key unset). -/
theorem C5_no_credential_guard (k1 k2 stock_symbol : String)
    (f : FetchResults) (impl : List Dict → Dict) (bars : List Rat)
    (ci m : Dict) (n1 : List Dict)
    (h1 : f.stock_data = Except.ok (Option.some bars))
    (h2 : f.company_info = Except.ok ci)
    (h3 : f.financial_metrics = Except.ok m)
    (h4 : f.newsFirst = Except.ok n1) :
    apiKeyExpanderExpanded k1 = (k1 == "")
    ∧ analyze k1 stock_symbol f impl = analyze k2 stock_symbol f impl
    ∧ FetchCall.engineCall ∈ (analyze k1 stock_symbol f impl).2 := by
  refine ⟨rfl, rfl, ?_⟩
  cases h5 : f.newsSecond <;> simp [analyze, h1, h2, h3, h4, h5]

/-- Witness for C5 (amended) at the empty key and a successful fetch
environment. -/
theorem C5_no_credential_guard_witness :
    apiKeyExpanderExpanded "" = ("" == "")
    ∧ analyze "" "AAPL" fxOk (fun _ => []) = analyze "someKey" "AAPL" fxOk (fun _ => [])
    ∧ FetchCall.engineCall ∈ (analyze "" "AAPL" fxOk (fun _ => [])).2 :=
  C5_no_credential_guard "" "someKey" "AAPL" fxOk (fun _ => [])
    [(1 : Rat)] [("longName", PyVal.str "Apple Inc.")]
    [("currentPrice", PyVal.num 100)] [] rfl rfl rfl rfl

/-- A fetch environment in which the metadata fetch raises while price
data, metrics and news are all available. -/
def fxInfoRaises : FetchResults :=
  { stock_data := Except.ok (Option.some [(1 : Rat)]),
    company_info := Except.error "metadata fetch failed",
    financial_metrics := Except.ok [("currentPrice", PyVal.num 100)],
    newsFirst := Except.ok [[("title", PyVal.str "Quarterly results")]],
    newsSecond := Except.ok [[("title", PyVal.str "Quarterly results")]],
    remote := RemoteOutcome.response [] }

/-- Counterexample to C4 as stated: all four fetches run inside one `try`
block (src/app.py:78-315), so when only the metadata fetch fails by
raising, the page is the already-emitted chart followed by the single
error message — the metrics and news sections, whose data was available,
are not rendered at all, and no per-section placeholder appears. -/
theorem C4_counterexample :
    (analyze "key" "AAPL" fxInfoRaises (fun _ => [])).1 =
      [Section.chart [(1 : Rat)], Section.assetTypeHeader "Stock",
       Section.errorMsg "An error occurred: metadata fetch failed",
       Section.errorHint "Please check if the stock symbol is correct. For IDX stocks, use the format IDX:SYMBOL (e.g., IDX:ADRO)."]
    ∧ (analyze "key" "AAPL" fxInfoRaises (fun _ => [])).1.any sectionIsMetrics = false
    ∧ (analyze "key" "AAPL" fxInfoRaises (fun _ => [])).1.any sectionIsNews = false := by
  refine ⟨rfl, ?_, ?_⟩ <;> decide

/-- C4 as amended: section-local degradation holds only for fetches that
return an empty result rather than raising, and only once the price fetch
has succeeded.  In that case all four tabs render, and an empty metadata,
metrics or news result is replaced by exactly its own localized
placeholder while the other tabs are unaffected.  (A raising fetch, by
contrast, aborts all later sections — see the counterexample — and a
failed price fetch is terminal for the whole request.) -/
theorem C4_empty_results_localized (gemini_api_key stock_symbol : String)
    (f : FetchResults) (impl : List Dict → Dict) (bars : List Rat)
    (ci m : Dict) (n1 n2 : List Dict)
    (h1 : f.stock_data = Except.ok (Option.some bars))
    (h2 : f.company_info = Except.ok ci)
    (h3 : f.financial_metrics = Except.ok m)
    (h4 : f.newsFirst = Except.ok n1)
    (h5 : f.newsSecond = Except.ok n2) :
    (analyze gemini_api_key stock_symbol f impl).1 =
      tab1Sections stock_symbol bars (generate_stock_analysis f.remote)
      ++ tab2Sections stock_symbol ci
      ++ tab3Sections stock_symbol m
      ++ tab4Sections stock_symbol n2 impl
    ∧ (ci = [] → tab2Sections stock_symbol ci =
        [Section.aboutHeader stock_symbol,
         Section.infoWarning (if isCrypto stock_symbol then
           "Cryptocurrency information not available"
           else "Company information not available")])
    ∧ (m = [] → tab3Sections stock_symbol m =
        [Section.metricsHeader stock_symbol
           (if isCrypto stock_symbol then "Cryptocurrency" else "Financial"),
         Section.metricsWarning "Financial metrics not available"])
    ∧ (n2 = [] → tab4Sections stock_symbol n2 impl =
        [Section.newsHeader stock_symbol, Section.noNews stock_symbol,
         Section.noNewsHint]) := by
  refine ⟨?_, ?_, ?_, ?_⟩
  · simp [analyze, h1, h2, h3, h4, h5, tab1Sections]
  · intro hci
    subst hci
    unfold tab2Sections cryptoInfoSections stockInfoSections
    cases hc : isCrypto stock_symbol <;> simp [hc, dictTruthy]
  · intro hm
    subst hm
    unfold tab3Sections
    cases hc : isCrypto stock_symbol <;> simp [hc, dictTruthy]
  · intro hn
    subst hn
    rfl

/-- Witness for C4 (amended) at a successful fetch environment whose
metrics fetch returned an empty mapping. -/
theorem C4_empty_results_localized_witness :
    (analyze "" "AAPL"
      { stock_data := Except.ok (Option.some [(1 : Rat)]),
        company_info := Except.ok [("longName", PyVal.str "Apple Inc.")],
        financial_metrics := Except.ok [],
        newsFirst := Except.ok [],
        newsSecond := Except.ok [],
        remote := RemoteOutcome.response [] } (fun _ => [])).1 =
      tab1Sections "AAPL" [(1 : Rat)] (generate_stock_analysis (RemoteOutcome.response []))
      ++ tab2Sections "AAPL" [("longName", PyVal.str "Apple Inc.")]
      ++ tab3Sections "AAPL" []
      ++ tab4Sections "AAPL" [] (fun _ => [])
    ∧ tab3Sections "AAPL" [] =
      [Section.metricsHeader "AAPL"
         (if isCrypto "AAPL" then "Cryptocurrency" else "Financial"),
       Section.metricsWarning "Financial metrics not available"] := by
  have h := C4_empty_results_localized "" "AAPL"
    { stock_data := Except.ok (Option.some [(1 : Rat)]),
      company_info := Except.ok [("longName", PyVal.str "Apple Inc.")],
      financial_metrics := Except.ok [],
      newsFirst := Except.ok [],
      newsSecond := Except.ok [],
      remote := RemoteOutcome.response [] } (fun _ => [])
    [(1 : Rat)] [("longName", PyVal.str "Apple Inc.")] [] [] []
    rfl rfl rfl rfl rfl
  exact ⟨h.1, h.2.2.1 rfl⟩

/-- C8: for every otherwise-valid symbol (price data present, nothing
raising), an empty metadata result or an empty metrics result degrades
only its own tab to the localized "not available" placeholder — for a
crypto symbol with empty metadata that placeholder is "Cryptocurrency
information not available", for an equity symbol it is "Company
information not available" — while the analysis, metrics/metadata and
news tabs all still render. -/
theorem C8_unavailable_data_localized (gemini_api_key stock_symbol : String)
    (f : FetchResults) (impl : List Dict → Dict) (bars : List Rat)
    (ci m : Dict) (n1 n2 : List Dict)
    (h1 : f.stock_data = Except.ok (Option.some bars))
    (h4 : f.newsFirst = Except.ok n1)
    (h5 : f.newsSecond = Except.ok n2) :
    (f.company_info = Except.ok [] → f.financial_metrics = Except.ok m →
      (analyze gemini_api_key stock_symbol f impl).1 =
        tab1Sections stock_symbol bars (generate_stock_analysis f.remote)
        ++ [Section.aboutHeader stock_symbol,
            Section.infoWarning (if isCrypto stock_symbol then
              "Cryptocurrency information not available"
              else "Company information not available")]
        ++ tab3Sections stock_symbol m
        ++ tab4Sections stock_symbol n2 impl)
    ∧ (f.company_info = Except.ok ci → f.financial_metrics = Except.ok [] →
      (analyze gemini_api_key stock_symbol f impl).1 =
        tab1Sections stock_symbol bars (generate_stock_analysis f.remote)
        ++ tab2Sections stock_symbol ci
        ++ [Section.metricsHeader stock_symbol
              (if isCrypto stock_symbol then "Cryptocurrency" else "Financial"),
            Section.metricsWarning "Financial metrics not available"]
        ++ tab4Sections stock_symbol n2 impl) := by
  constructor
  · intro h2 h3
    cases hc : isCrypto stock_symbol <;>
      simp [analyze, h1, h2, h3, h4, h5, tab1Sections, tab2Sections,
            cryptoInfoSections, stockInfoSections, hc, dictTruthy]
  · intro h2 h3
    cases hc : isCrypto stock_symbol <;>
      simp [analyze, h1, h2, h3, h4, h5, tab1Sections, tab3Sections,
            hc, dictTruthy]

/-- Witness for C8, exercising both asset kinds: the spec's scenario of
symbol `ETH-USD` with empty metadata (metrics and one news article
available), and the equity symbol `AAPL` with empty metadata. -/
theorem C8_unavailable_data_localized_witness :
    ((analyze "" "ETH-USD"
      { stock_data := Except.ok (Option.some [(2 : Rat)]),
        company_info := Except.ok [],
        financial_metrics := Except.ok [("currentPrice", PyVal.num 5)],
        newsFirst := Except.ok [[("title", PyVal.str "ETH upgrade")]],
        newsSecond := Except.ok [[("title", PyVal.str "ETH upgrade")]],
        remote := RemoteOutcome.response [] } (fun _ => [])).1 =
      tab1Sections "ETH-USD" [(2 : Rat)] (generate_stock_analysis (RemoteOutcome.response []))
      ++ [Section.aboutHeader "ETH-USD",
          Section.infoWarning "Cryptocurrency information not available"]
      ++ tab3Sections "ETH-USD" [("currentPrice", PyVal.num 5)]
      ++ tab4Sections "ETH-USD" [[("title", PyVal.str "ETH upgrade")]] (fun _ => []))
    ∧ ((analyze "" "AAPL"
      { stock_data := Except.ok (Option.some [(3 : Rat)]),
        company_info := Except.ok [],
        financial_metrics := Except.ok [("currentPrice", PyVal.num 7)],
        newsFirst := Except.ok [],
        newsSecond := Except.ok [],
        remote := RemoteOutcome.response [] } (fun _ => [])).1 =
      tab1Sections "AAPL" [(3 : Rat)] (generate_stock_analysis (RemoteOutcome.response []))
      ++ [Section.aboutHeader "AAPL",
          Section.infoWarning "Company information not available"]
      ++ tab3Sections "AAPL" [("currentPrice", PyVal.num 7)]
      ++ tab4Sections "AAPL" [] (fun _ => [])) := by
  constructor
  · have h := C8_unavailable_data_localized "" "ETH-USD"
      { stock_data := Except.ok (Option.some [(2 : Rat)]),
        company_info := Except.ok [],
        financial_metrics := Except.ok [("currentPrice", PyVal.num 5)],
        newsFirst := Except.ok [[("title", PyVal.str "ETH upgrade")]],
        newsSecond := Except.ok [[("title", PyVal.str "ETH upgrade")]],
        remote := RemoteOutcome.response [] } (fun _ => [])
      [(2 : Rat)] [] [("currentPrice", PyVal.num 5)]
      [[("title", PyVal.str "ETH upgrade")]] [[("title", PyVal.str "ETH upgrade")]]
      rfl rfl rfl
    have he := h.1 rfl rfl
    rw [show (if isCrypto "ETH-USD" then "Cryptocurrency information not available"
          else "Company information not available") = "Cryptocurrency information not available"
        from by rw [show isCrypto "ETH-USD" = true from by decide]; rfl] at he
    exact he
  · have h := C8_unavailable_data_localized "" "AAPL"
      { stock_data := Except.ok (Option.some [(3 : Rat)]),
        company_info := Except.ok [],
        financial_metrics := Except.ok [("currentPrice", PyVal.num 7)],
        newsFirst := Except.ok [],
        newsSecond := Except.ok [],
        remote := RemoteOutcome.response [] } (fun _ => [])
      [(3 : Rat)] [] [("currentPrice", PyVal.num 7)] [] []
      rfl rfl rfl
    have ha := h.1 rfl rfl
    rw [show (if isCrypto "AAPL" then "Cryptocurrency information not available"
          else "Company information not available") = "Company information not available"
        from by rw [show isCrypto "AAPL" = false from by decide]; rfl] at ha
    exact ha
